import Mathlib

/-!
Verification of the ColorInsight wizard application.

The development shallowly embeds the application's data model (types.ts),
the two service modules (pdfService.ts, geminiService.ts in its two
variants) and the state-updating handlers of the two App variants
(the search-augmented app and the simulated-search app).  JavaScript
numbers are modelled as rationals, JavaScript strings as Lean strings,
and each asynchronous external call is modelled by an explicit
"Except String" outcome parameter handed to the handler, so that a
handler becomes a pure function from the current session state and the
outcome of its external call to the next session state.
-/

namespace ColorInsight

/-! ## Data model (src/types.ts) -/

/-- View states of the wizard, from the AppState enum in types.ts. -/
inductive AppState where
  | LANDING
  | UPLOAD
  | ANALYZING_DOC
  | CONFIRM_REQUIREMENTS
  | SEARCHING
  | VIEW_SEARCH_RESULTS
  | COMPARING
  | RESULT
deriving DecidableEq

/-- BilingualText from types.ts. -/
structure BilingualText where
  en : String
  zh : String
deriving DecidableEq

/-- One entry of SearchResult.sources from types.ts. -/
structure SourceRef where
  title : String
  url : String
deriving DecidableEq

/-- SearchResult from types.ts. -/
structure SearchResult where
  trends : List BilingualText := []
  competitors : List BilingualText := []
  keywords : List String := []
  marketInsight : BilingualText := ⟨"", ""⟩
  sources : List SourceRef := []
deriving DecidableEq

/-- The five sub-scores of a ColorScheme (types.ts); each is a
JavaScript number, modelled as a rational. -/
structure Scores where
  «match» : ℚ
  trend : ℚ
  market : ℚ
  innovation : ℚ
  harmony : ℚ
deriving DecidableEq

/-- A scheme as returned by the AI generator, before the frontend
attaches the derived weighted score.  The purely presentational fields
(name, description, palette, sources, usageAdvice, swot) flow through
the object spread unchanged and play no role in any claim, so only the
identifying id and the sub-scores are carried. -/
structure RawScheme where
  id : String
  scores : Scores
deriving DecidableEq

/-- A scheme after generateAndScoreSchemes attached weightedScore.
Note that the attached value is the result of Number.prototype.toFixed,
hence a string, although types.ts declares the field as a number. -/
structure AnnotatedScheme where
  id : String
  scores : Scores
  weightedScore : String
deriving DecidableEq

/-- Requirement from types.ts. -/
structure Requirement where
  id : String
  text : String
  summaryEn : Option String := none
  sourcePage : Option ℕ := none
deriving DecidableEq

/-- The parsed JSON object returned by extractRequirements. -/
structure ExtractResult where
  customerName : String
  requirements : List Requirement
deriving DecidableEq

/-- The part of a browser File object the handlers inspect. -/
structure FileInfo where
  mimeType : String
  size : ℕ
deriving DecidableEq

/-- The complete React state of an App component.  The union of the
useState hooks of both App variants; each variant reads and writes the
fields its own hooks declare and leaves the others untouched. -/
structure Session where
  view : AppState
  customerName : String := ""
  requirements : List Requirement := []
  searchResult : Option SearchResult := none
  schemes : List AnnotatedScheme := []
  bestScheme : Option AnnotatedScheme := none
  loadingMsg : String := ""
  error : Option String := none
  generatedImage : Option String := none
  isGeneratingImage : Bool := false
  isDownloading : Bool := false
  file : Option FileInfo := none
deriving DecidableEq

/-! ## JavaScript primitives -/

/-- JavaScript string-or-default idiom (x or-else dflt): an empty
string is falsy, every other string is truthy. -/
def jsOrDefault (s dflt : String) : String := if s = "" then dflt else s

/-- Digit-string to natural number, most significant digit first. -/
def parseDigits (l : List Char) : ℕ := l.foldl (fun a c => 10 * a + (c.toNat - 48)) 0

/-- JavaScript Number(s) restricted to the decimal strings this
application produces: an optional fractional part after one dot. -/
def jsNumber (s : String) : ℚ :=
  match s.data.splitOn '.' with
  | [a] => (parseDigits a : ℚ)
  | [a, b] => (parseDigits a : ℚ) + (parseDigits b : ℚ) / (10 : ℚ) ^ b.length
  | _ => 0

/-- JavaScript code-unit comparison of two character lists: the order
used by the < and > operators on strings. -/
def jsCharsLt : List Char → List Char → Bool
  | [], [] => false
  | [], _ :: _ => true
  | _ :: _, [] => false
  | a :: as, b :: bs =>
    if a.toNat < b.toNat then true
    else if b.toNat < a.toNat then false
    else jsCharsLt as bs

/-- JavaScript relational comparison a < b on strings: lexicographic by
code unit (our strings are ASCII digit strings, where code units and
code points coincide). -/
def jsStringLt (a b : String) : Bool := jsCharsLt a.data b.data

/-- Rendering of a two-decimal fixed-point value from its value in
hundredths: the digit string produced by toFixed(2) for the
non-negative values this application computes. -/
def centsToString (cents : ℤ) : String :=
  toString (cents / 100) ++ "." ++
    (if cents % 100 < 10 then "0" ++ toString (cents % 100) else toString (cents % 100))

/-- JavaScript x.toFixed(2) for the non-negative values this
application computes: round to the nearest hundredth and print with
exactly two decimal places. -/
def toFixedTwo (x : ℚ) : String := centsToString (round (100 * x))

/-! ## geminiService: scheme scoring -/

/-- The annotation step of generateAndScoreSchemes (both service
variants share it verbatim): spread each scheme and attach
weightedScore := (match*0.30 + trend*0.25 + market*0.20 +
innovation*0.15 + harmony*0.10).toFixed(2). -/
def generateAndScoreSchemes (schemes : List RawScheme) : List AnnotatedScheme :=
  schemes.map fun s =>
    { id := s.id
      scores := s.scores
      weightedScore := toFixedTwo
        (s.scores.«match» * 0.30 + s.scores.trend * 0.25 + s.scores.market * 0.20 +
          s.scores.innovation * 0.15 + s.scores.harmony * 0.10) }

/-- Modelled from the spec: the weighted composite
0.30·match + 0.25·trend + 0.20·market + 0.15·innovation + 0.10·harmony,
written the way section 4.2 of the specification states it, for
comparison against the code's expression. -/
def specComposite (s : Scores) : ℚ :=
  0.30 * s.«match» + 0.25 * s.trend + 0.20 * s.market + 0.15 * s.innovation + 0.10 * s.harmony

/-! ## geminiService: market-search source collection -/

/-- The web field of a grounding chunk: uri and title may each be
absent or empty. -/
structure WebRef where
  uri : Option String
  title : Option String
deriving DecidableEq

/-- One grounding chunk of the search response metadata. -/
structure Chunk where
  web : Option WebRef
deriving DecidableEq

/-- The forEach loop of performMarketSearch that pushes
(title, url) for every chunk whose web.uri and web.title are both
truthy (present and non-empty). -/
def collectSources (chunks : List Chunk) : List SourceRef :=
  chunks.filterMap fun c =>
    match c.web with
    | some w =>
      match w.uri, w.title with
      | some u, some t => if u ≠ "" ∧ t ≠ "" then some { title := t, url := u } else none
      | _, _ => none
    | none => none

/-- Array.prototype.filter with the element index handed to the
callback, starting from a given index. -/
def filterWithIdx (p : ℕ → SourceRef → Bool) : ℕ → List SourceRef → List SourceRef
  | _, [] => []
  | i, x :: xs => if p i x then x :: filterWithIdx p (i + 1) xs else filterWithIdx p (i + 1) xs

/-- The deduplication line of performMarketSearch:
sources.filter((v,i,a) => a.findIndex(v2 => v2.url === v.url) === i).slice(0, 5).
The callback receives each element of the very list being filtered, so
findIndex always finds a match and its -1 case cannot arise. -/
def uniqueSources (l : List SourceRef) : List SourceRef :=
  (filterWithIdx (fun i v => l.findIdx (fun w => w.url == v.url) == i) 0 l).take 5

/-- The source list performMarketSearch attaches to its result, as a
function of the grounding chunks of the response. -/
def performMarketSearchSources (chunks : List Chunk) : List SourceRef :=
  uniqueSources (collectSources chunks)

/-- Modelled from the spec: keep the first occurrence of every url, in
order of first occurrence ("order-preserving by first occurrence"). -/
def firstOccurrences : List SourceRef → List SourceRef
  | [] => []
  | x :: xs => x :: firstOccurrences (xs.filter fun w => w.url != x.url)
termination_by l => l.length
decreasing_by
  simpa using Nat.lt_succ_of_le (List.length_filter_le _ xs)

/-- Bridge between the index-based filter of the source and the
recursive first-occurrence picture: scan the list keeping every element
whose url has not been seen yet. -/
def dedupSeen (seen : List String) : List SourceRef → List SourceRef
  | [] => []
  | x :: xs => if x.url ∈ seen then dedupSeen seen xs else x :: dedupSeen (x.url :: seen) xs

/-! ## pdfService: text extraction -/

/-- The page loop of extractTextFromPDF: starting from page number i
and the text accumulated so far, append "[Page i] " plus the page text
plus a newline for every remaining page. -/
def extractPagesLoop : ℕ → String → List String → String
  | _, acc, [] => acc
  | i, acc, t :: rest =>
    extractPagesLoop (i + 1) (acc ++ ("[Page " ++ toString i ++ "] " ++ t ++ "\n")) rest

/-- extractTextFromPDF on the success path, with the document modelled
as its list of per-page texts (each page text is already the
space-join of its items).  The source caps the loop at
maxPages = min(numPages, 20) and 1-indexes pages, which is exactly a
take 20 followed by the loop from page number 1. -/
def extractTextFromPDF (pages : List String) : String :=
  extractPagesLoop 1 "" (pages.take 20)

/-- Modelled from the spec: the concatenation over the first 20 pages
of the page text prefixed with its page marker and followed by a
newline. -/
def pageMarkersConcat : ℕ → List String → String
  | _, [] => ""
  | i, t :: rest => "[Page " ++ toString i ++ "] " ++ t ++ "\n" ++ pageMarkersConcat (i + 1) rest

/-- Modelled from the spec: per-page markers, pages numbered from 1,
pages beyond the twentieth dropped. -/
def pageConcatSpec (pages : List String) : String := pageMarkersConcat 1 (pages.take 20)

/-! ## App handlers, search-augmented variant -/

/-- The reduce of handleGenerateSchemes:
schemes.reduce((prev, current) =>
  (Number(prev.weightedScore) > Number(current.weightedScore)) ? prev : current),
generalised over the numeric key.  JavaScript reduce without an initial
value starts from the first element and folds the rest from the left. -/
def jsReduceBest {α β : Type} [LinearOrder β] (key : α → β) (first : α) (rest : List α) : α :=
  rest.foldl (fun prev cur => if key prev > key cur then prev else cur) first

/-- processFile of the search-augmented App: run text extraction, then
requirement extraction, and on either failure return to the upload view
with "Analysis Failed: " plus the error message (or "Unknown error" for
a falsy message).  On success record the customer name (defaulting a
falsy name to "Client") and the extracted requirements and advance to
the confirmation view. -/
def processFile (s : Session) (textOutcome : Except String String)
    (reqOutcome : String → Except String ExtractResult) : Session :=
  let s1 := { s with loadingMsg := "Parsing PDF Content... / 正在解析文本..." }
  match textOutcome with
  | .error e =>
    { s1 with error := some ("Analysis Failed: " ++ jsOrDefault e "Unknown error")
              view := AppState.UPLOAD }
  | .ok text =>
    let s2 := { s1 with loadingMsg := "AI Analyzing Requirements... / AI 正在提取品牌需求..." }
    match reqOutcome text with
    | .error e =>
      { s2 with error := some ("Analysis Failed: " ++ jsOrDefault e "Unknown error")
                view := AppState.UPLOAD }
    | .ok r =>
      { s2 with customerName := jsOrDefault r.customerName "Client"
                requirements := r.requirements
                view := AppState.CONFIRM_REQUIREMENTS }

/-- handleFileUpload of the search-augmented App.  The returned flag
records whether processFile (and with it text extraction) was invoked. -/
def handleFileUpload (s : Session) (f : FileInfo) (textOutcome : Except String String)
    (reqOutcome : String → Except String ExtractResult) : Session × Bool :=
  if f.mimeType ≠ "application/pdf" then
    ({ s with error := some "Please upload a PDF file. / 请上传 PDF 格式文件。" }, false)
  else
    (processFile { s with error := none, view := AppState.ANALYZING_DOC } textOutcome reqOutcome,
      true)

/-- handleGenerateSchemes of the search-augmented App.  Guards on a
present searchResult, then on success stores the annotated batch, picks
the best scheme by the Number-converting reduce and advances to the
comparison view; the reduce of an empty array throws inside the try
block, which the catch turns into the error path; on failure of the
generation call itself the schemes are not touched and the view returns
to the search-results page. -/
def handleGenerateSchemes (s : Session) (outcome : Except String (List RawScheme)) : Session :=
  if s.searchResult = none then s
  else
    let s1 := { s with error := none
                       view := AppState.SEARCHING
                       loadingMsg := "Generating Color Strategies... / 正在生成色彩策略..." }
    match outcome with
    | .error e =>
      { s1 with error := some ("Generation Failed: " ++ e)
                view := AppState.VIEW_SEARCH_RESULTS }
    | .ok raws =>
      match generateAndScoreSchemes raws with
      | [] =>
        { s1 with schemes := []
                  error := some ("Generation Failed: " ++ "Reduce of empty array with no initial value")
                  view := AppState.VIEW_SEARCH_RESULTS }
      | a :: rest =>
        { s1 with schemes := a :: rest
                  bestScheme := some (jsReduceBest (fun t => jsNumber t.weightedScore) a rest)
                  view := AppState.COMPARING }

/-- The reset handler wired to the New button of the search-augmented
App result view: back to the upload view, schemes, requirements, best
scheme and generated image cleared. -/
def resetSession (s : Session) : Session :=
  { s with view := AppState.UPLOAD
           schemes := []
           requirements := []
           bestScheme := none
           generatedImage := none }

/-! ## App handlers, simulated-search variant -/

/-- processFile of the simulated-search App; same shape as the other
variant with its own messages and defaults. -/
def processFileSim (s : Session) (textOutcome : Except String String)
    (reqOutcome : String → Except String ExtractResult) : Session :=
  let s1 := { s with loadingMsg := "Extracting text from PDF..." }
  match textOutcome with
  | .error e =>
    { s1 with error := some (jsOrDefault e "Failed to process file")
              view := AppState.UPLOAD }
  | .ok text =>
    let s2 := { s1 with loadingMsg := "Identifying color requirements with Gemini AI..." }
    match reqOutcome text with
    | .error e =>
      { s2 with error := some (jsOrDefault e "Failed to process file")
                view := AppState.UPLOAD }
    | .ok r =>
      { s2 with customerName := jsOrDefault r.customerName "Unknown Client"
                requirements := r.requirements
                view := AppState.CONFIRM_REQUIREMENTS }

/-- handleFileUpload of the simulated-search App: rejects a non-PDF
MIME type, then a size above 20 * 1024 * 1024 bytes, and otherwise
stores the file and runs processFile.  The returned flag records
whether processFile (and with it text extraction) was invoked. -/
def handleFileUploadSim (s : Session) (f : FileInfo) (textOutcome : Except String String)
    (reqOutcome : String → Except String ExtractResult) : Session × Bool :=
  if f.mimeType ≠ "application/pdf" then
    ({ s with error := some "Please upload a PDF file." }, false)
  else if f.size > 20 * 1024 * 1024 then
    ({ s with error := some "File size exceeds 20MB." }, false)
  else
    (processFileSim { s with file := some f, error := none, view := AppState.ANALYZING_DOC }
        textOutcome reqOutcome,
      true)

/-- The Re-upload button of the simulated-search App requirements view:
returns to the upload view and changes nothing else. -/
def reUploadSim (s : Session) : Session := { s with view := AppState.UPLOAD }

/-- The reduce of handleStartSearch in the simulated-search App:
(prev.weightedScore > current.weightedScore) ? prev : current, with no
Number conversion, so a JavaScript string comparison. -/
def simBest (first : AnnotatedScheme) (rest : List AnnotatedScheme) : AnnotatedScheme :=
  rest.foldl
    (fun prev cur => if jsStringLt cur.weightedScore prev.weightedScore then prev else cur)
    first

/-- handleStartSearch of the simulated-search App: the staged loading
messages cannot fail, then the generation call either succeeds (store
the batch, pick the best by the string-comparing reduce, advance to the
comparison view; an empty batch makes the reduce throw into the catch)
or fails, returning to the confirmation view with the error message
(or "Search failed" for a falsy one) and the schemes untouched. -/
def handleStartSearchSim (s : Session) (outcome : Except String (List RawScheme)) : Session :=
  let s1 := { s with view := AppState.SEARCHING
                     loadingMsg := "Cross-referencing market data on Behance/Pinterest..." }
  match outcome with
  | .error e =>
    { s1 with error := some (jsOrDefault e "Search failed")
              view := AppState.CONFIRM_REQUIREMENTS }
  | .ok raws =>
    match generateAndScoreSchemes raws with
    | [] =>
      { s1 with schemes := []
                error := some "Reduce of empty array with no initial value"
                view := AppState.CONFIRM_REQUIREMENTS }
    | a :: rest =>
      { s1 with schemes := a :: rest
                bestScheme := some (simBest a rest)
                view := AppState.COMPARING }

/-- The reset handler wired to the Start New button of the
simulated-search App result view: back to the upload view with schemes
and requirements cleared; best scheme, customer name and the rest stay. -/
def resetSessionSim (s : Session) : Session :=
  { s with view := AppState.UPLOAD
           schemes := []
           requirements := [] }

/-! ## Concrete instances used by counterexamples and witnesses -/

/-- Four raw schemes whose composite scores are 7.00, 8.50, 8.50 and
6.00: each has all five sub-scores equal, and the weights sum to 1. -/
def c2raws : List RawScheme :=
  [ { id := "a", scores := ⟨7, 7, 7, 7, 7⟩ }
  , { id := "b", scores := ⟨8.5, 8.5, 8.5, 8.5, 8.5⟩ }
  , { id := "c", scores := ⟨8.5, 8.5, 8.5, 8.5, 8.5⟩ }
  , { id := "d", scores := ⟨6, 6, 6, 6, 6⟩ } ]

/-- A session sitting on the search-results view with a search result
present, as when Generate Strategy is clicked. -/
def c2session : Session :=
  { view := AppState.VIEW_SEARCH_RESULTS, searchResult := some {} }

/-- A requirement extracted from a first, successful upload. -/
def c5req : Requirement := { id := "1", text := "warm, natural tones" }

/-- A PDF file within the size cap. -/
def c5pdfFile : FileInfo := { mimeType := "application/pdf", size := 1000 }

/-- Simulated-search variant, first upload: extraction succeeds and
records one requirement. -/
def c5s1 : Session :=
  (handleFileUploadSim { view := AppState.UPLOAD } c5pdfFile (.ok "report text")
    (fun _ => .ok { customerName := "Acme", requirements := [c5req] })).1

/-- The user clicks Re-upload on the confirmation view. -/
def c5s2 : Session := reUploadSim c5s1

/-- Second upload of the same PDF: requirement extraction now throws. -/
def c5s3 : Session :=
  (handleFileUploadSim c5s2 c5pdfFile (.ok "report text")
    (fun _ => .error "AI response empty")).1

/-- A far-progressed session on the result view, with every clearable
field populated. -/
def c8session : Session :=
  { view := AppState.RESULT
    customerName := "Acme Studio"
    requirements := [{ id := "1", text := "warm, natural tones" }]
    searchResult := some {}
    schemes := [{ id := "a", scores := ⟨7, 7, 7, 7, 7⟩, weightedScore := "7.00" }]
    bestScheme := some { id := "a", scores := ⟨7, 7, 7, 7, 7⟩, weightedScore := "7.00" }
    generatedImage := some "data-uri" }

/-- Two raw schemes whose composites are 10.00 and 9.00. -/
def c10raws : List RawScheme :=
  [ { id := "hi", scores := ⟨10, 10, 10, 10, 10⟩ }
  , { id := "lo", scores := ⟨9, 9, 9, 9, 9⟩ } ]

/-- A session on the confirmation view of the simulated-search App. -/
def c10simSession : Session :=
  { view := AppState.CONFIRM_REQUIREMENTS }

/-- A session on the search-results view of the search-augmented App. -/
def c10searchSession : Session :=
  { view := AppState.VIEW_SEARCH_RESULTS, searchResult := some {} }

/-- A session sitting on the upload view in its initial data state. -/
def uploadSession : Session := { view := AppState.UPLOAD }

/-- A plain-text (non-PDF) file. -/
def textFile : FileInfo := { mimeType := "text/plain", size := 100 }

/-- A PDF file one byte above the 20 MiB cap. -/
def hugePdfFile : FileInfo := { mimeType := "application/pdf", size := 20 * 1024 * 1024 + 1 }

/-- A text-extraction outcome for witnesses (never reached on the
rejection paths). -/
def dummyTextOutcome : Except String String := .error "unused"

/-- A requirement-extraction outcome for witnesses (never reached on
the rejection paths). -/
def dummyReqOutcome : String → Except String ExtractResult := fun _ => .error "unused"

/-! ## Theorems -/

/-- Rendering a composite whose hundredths round to a known integer. -/
theorem toFixedTwo_of_round (x : ℚ) (n : ℤ) (h : round (100 * x) = n) :
    toFixedTwo x = centsToString n := by
  show centsToString (round (100 * x)) = centsToString n
  rw [h]

/-- Evaluation of jsNumber on the rendered string "6.00". -/
theorem jsNumber_600 : jsNumber "6.00" = 6 := by
  have hs : "6.00".data.splitOn '.' = [['6'], ['0', '0']] := by decide
  unfold jsNumber
  rw [hs]
  have h1 : parseDigits ['6'] = 6 := by decide
  have h2 : parseDigits ['0', '0'] = 0 := by decide
  simp [h1, h2]

/-- Evaluation of jsNumber on the rendered string "7.00". -/
theorem jsNumber_700 : jsNumber "7.00" = 7 := by
  have hs : "7.00".data.splitOn '.' = [['7'], ['0', '0']] := by decide
  unfold jsNumber
  rw [hs]
  have h1 : parseDigits ['7'] = 7 := by decide
  have h2 : parseDigits ['0', '0'] = 0 := by decide
  simp [h1, h2]

/-- Evaluation of jsNumber on the rendered string "8.50". -/
theorem jsNumber_850 : jsNumber "8.50" = 17 / 2 := by
  have hs : "8.50".data.splitOn '.' = [['8'], ['5', '0']] := by decide
  unfold jsNumber
  rw [hs]
  have h1 : parseDigits ['8'] = 8 := by decide
  have h2 : parseDigits ['5', '0'] = 50 := by decide
  simp [h1, h2]
  norm_num

/-- Evaluation of jsNumber on the rendered string "9.00". -/
theorem jsNumber_900 : jsNumber "9.00" = 9 := by
  have hs : "9.00".data.splitOn '.' = [['9'], ['0', '0']] := by decide
  unfold jsNumber
  rw [hs]
  have h1 : parseDigits ['9'] = 9 := by decide
  have h2 : parseDigits ['0', '0'] = 0 := by decide
  simp [h1, h2]

/-- Evaluation of jsNumber on the rendered string "10.00". -/
theorem jsNumber_1000 : jsNumber "10.00" = 10 := by
  have hs : "10.00".data.splitOn '.' = [['1', '0'], ['0', '0']] := by decide
  unfold jsNumber
  rw [hs]
  have h1 : parseDigits ['1', '0'] = 10 := by decide
  have h2 : parseDigits ['0', '0'] = 0 := by decide
  simp [h1, h2]

/-- A string with a non-empty left part stays non-empty under append. -/
theorem append_ne_empty (a b : String) (h : a.data ≠ []) : a ++ b ≠ "" := by
  intro hab
  have hd : (a ++ b).data = [] := by rw [hab]
  rw [String.data_append] at hd
  exact h (List.append_eq_nil.mp hd).1

/-- jsOrDefault never returns the empty string when the default is
non-empty. -/
theorem jsOrDefault_ne_empty (s d : String) (hd : d ≠ "") : jsOrDefault s d ≠ "" := by
  unfold jsOrDefault
  by_cases hs : s = ""
  · rw [if_pos hs]; exact hd
  · rw [if_neg hs]; exact hs

/-- The reduce visits the rest of the batch from the left, so its
result is the first element or one of the rest. -/
theorem jsReduceBest_mem {α β : Type} [LinearOrder β] (key : α → β) (first : α)
    (rest : List α) :
    jsReduceBest key first rest = first ∨ jsReduceBest key first rest ∈ rest := by
  induction rest generalizing first with
  | nil => exact Or.inl rfl
  | cons x xs ih =>
    have hstep : jsReduceBest key first (x :: xs)
        = jsReduceBest key (if key first > key x then first else x) xs := rfl
    rcases ih (if key first > key x then first else x) with h | h
    · rw [hstep, h]
      by_cases hc : key first > key x
      · rw [if_pos hc]
        exact Or.inl rfl
      · rw [if_neg hc]
        exact Or.inr (List.mem_cons_self x xs)
    · rw [hstep]
      exact Or.inr (List.mem_cons_of_mem x h)

/-- Once the running value strictly dominates everything that remains,
the reduce never replaces it again. -/
theorem jsReduceBest_const {α β : Type} [LinearOrder β] (key : α → β) (b : α)
    (l : List α) (h : ∀ x ∈ l, key x < key b) : jsReduceBest key b l = b := by
  induction l with
  | nil => rfl
  | cons x xs ih =>
    have hx : key b > key x := h x (List.mem_cons_self x xs)
    have hstep : jsReduceBest key b (x :: xs) = jsReduceBest key b xs := by
      show jsReduceBest key (if key b > key x then b else x) xs = jsReduceBest key b xs
      rw [if_pos hx]
    rw [hstep]
    exact ih fun y hy => h y (List.mem_cons_of_mem x hy)

/-- Claim C2 (amended): the reduce keeps the running value only when it
is strictly greater than the current element, so it selects an element
attaining the maximal key whose later elements are all strictly
smaller: the last occurrence of the maximum. -/
theorem jsReduceBest_last_max {α β : Type} [LinearOrder β] (key : α → β) (first b : α)
    (l₁ l₂ : List α)
    (h1 : ∀ x ∈ first :: (l₁ ++ b :: l₂), key x ≤ key b)
    (h2 : ∀ x ∈ l₂, key x < key b) :
    jsReduceBest key first (l₁ ++ b :: l₂) = b := by
  have hle : key (jsReduceBest key first l₁) ≤ key b := by
    rcases jsReduceBest_mem key first l₁ with h | h
    · rw [h]
      exact h1 first (List.mem_cons_self first _)
    · exact h1 _ (List.mem_cons_of_mem _ (List.mem_append_left _ h))
  have hsplit : jsReduceBest key first (l₁ ++ b :: l₂)
      = jsReduceBest key (jsReduceBest key first l₁) (b :: l₂) := by
    unfold jsReduceBest
    exact List.foldl_append _ _ _ _
  rw [hsplit]
  have hstep : jsReduceBest key (jsReduceBest key first l₁) (b :: l₂)
      = jsReduceBest key b l₂ := by
    show jsReduceBest key (if key (jsReduceBest key first l₁) > key b then _ else b) l₂
        = jsReduceBest key b l₂
    rw [if_neg (not_lt.mpr hle)]
  rw [hstep]
  exact jsReduceBest_const key b l₂ h2

/-- Witness for the last-occurrence behaviour of the reduce at a
concrete tied batch of keys [1, 2, 2, 0]: each hypothesis of the
theorem holds there and the second occurrence of the maximum is
selected. -/
theorem jsReduceBest_last_max_witness :
    (∀ x ∈ (1 : ℕ) :: ([2] ++ 2 :: [0]), id x ≤ id 2)
    ∧ (∀ x ∈ ([0] : List ℕ), id x < id 2)
    ∧ jsReduceBest (id : ℕ → ℕ) 1 ([2] ++ 2 :: [0]) = 2 :=
  ⟨by decide, by decide, jsReduceBest_last_max id 1 2 [2] [0] (by decide) (by decide)⟩

/-- Claim C1, counterexample: at the sub-score tuple (8,7,6,5,9) the
code annotates the scheme with the composite "7.00", not 6.95. -/
theorem weightedScore_sample_is_700_not_695 :
    ((generateAndScoreSchemes [{ id := "s", scores := ⟨8, 7, 6, 5, 9⟩ }]).map
        fun t => t.weightedScore) = ["7.00"]
    ∧ ("7.00" : String) ≠ "6.95" := by
  refine ⟨?_, by decide⟩
  show [toFixedTwo ((8 : ℚ) * 0.30 + 7 * 0.25 + 6 * 0.20 + 5 * 0.15 + 9 * 0.10)] = ["7.00"]
  rw [toFixedTwo_of_round _ 700 (by norm_num)]
  decide

/-- Claim C1 (amended): generateAndScoreSchemes annotates every scheme
of the batch with the weighted composite 0.30·match + 0.25·trend +
0.20·market + 0.15·innovation + 0.10·harmony rendered to two decimal
places, and at the sub-score tuple (8,7,6,5,9) the composite it
produces is 7.00. -/
theorem generateAndScoreSchemes_formula (schemes : List RawScheme) :
    ((generateAndScoreSchemes schemes).map fun t => t.weightedScore)
      = (schemes.map fun s => toFixedTwo (specComposite s.scores))
    ∧ toFixedTwo (specComposite ⟨8, 7, 6, 5, 9⟩) = "7.00" := by
  constructor
  · unfold generateAndScoreSchemes
    rw [List.map_map]
    refine List.map_congr_left fun s _ => ?_
    show toFixedTwo _ = toFixedTwo _
    congr 1
    unfold specComposite
    ring
  · have h700 : round ((100 : ℚ) * specComposite ⟨8, 7, 6, 5, 9⟩) = 700 := by
      unfold specComposite
      norm_num
    rw [toFixedTwo_of_round _ 700 h700]
    decide

/-- Evaluation of the annotation step on the tied batch: composite
scores 7.00, 8.50, 8.50, 6.00 in generation order a, b, c, d. -/
theorem c2batch_eval :
    generateAndScoreSchemes c2raws
      = [ { id := "a", scores := ⟨7, 7, 7, 7, 7⟩, weightedScore := "7.00" }
        , { id := "b", scores := ⟨8.5, 8.5, 8.5, 8.5, 8.5⟩, weightedScore := "8.50" }
        , { id := "c", scores := ⟨8.5, 8.5, 8.5, 8.5, 8.5⟩, weightedScore := "8.50" }
        , { id := "d", scores := ⟨6, 6, 6, 6, 6⟩, weightedScore := "6.00" } ] := by
  have e7 : toFixedTwo ((7 : ℚ) * 0.30 + 7 * 0.25 + 7 * 0.20 + 7 * 0.15 + 7 * 0.10)
      = "7.00" := by
    rw [toFixedTwo_of_round _ 700 (by norm_num)]
    decide
  have e85 : toFixedTwo ((8.5 : ℚ) * 0.30 + 8.5 * 0.25 + 8.5 * 0.20 + 8.5 * 0.15 + 8.5 * 0.10)
      = "8.50" := by
    rw [toFixedTwo_of_round _ 850 (by norm_num)]
    decide
  have e6 : toFixedTwo ((6 : ℚ) * 0.30 + 6 * 0.25 + 6 * 0.20 + 6 * 0.15 + 6 * 0.10)
      = "6.00" := by
    rw [toFixedTwo_of_round _ 600 (by norm_num)]
    decide
  simp only [generateAndScoreSchemes, c2raws, List.map_cons, List.map_nil, e7, e85, e6]

/-- Claim C2, counterexample: on composite scores [7.00, 8.50, 8.50,
6.00] the handler selects the scheme at index 2, the last occurrence of
the maximum, not the scheme at index 1. -/
theorem bestScheme_tie_selects_index2 :
    ((generateAndScoreSchemes c2raws).map fun t => t.id) = ["a", "b", "c", "d"]
    ∧ ((generateAndScoreSchemes c2raws).map fun t => t.weightedScore)
        = ["7.00", "8.50", "8.50", "6.00"]
    ∧ ((handleGenerateSchemes c2session (.ok c2raws)).bestScheme.map fun t => t.id)
        = some "c"
    ∧ ("c" : String) ≠ "b" := by
  have hguard : ¬(c2session.searchResult = none) := by decide
  refine ⟨by rw [c2batch_eval]; rfl, by rw [c2batch_eval]; rfl, ?_, by decide⟩
  simp only [handleGenerateSchemes, hguard, if_false, c2batch_eval]
  norm_num [jsReduceBest, List.foldl, jsNumber_700, jsNumber_850, jsNumber_600]

/-- Claim C3: in both App variants, an upload whose MIME type is not
application/pdf leaves the view on the upload screen, records the
non-empty file-type error message, leaves the requirement list
unchanged, and never invokes text extraction. -/
theorem handleFileUpload_nonPDF_rejected (s : Session) (f : FileInfo)
    (to1 : Except String String) (ro1 : String → Except String ExtractResult)
    (to2 : Except String String) (ro2 : String → Except String ExtractResult)
    (hm : f.mimeType ≠ "application/pdf") (hv : s.view = AppState.UPLOAD) :
    ((handleFileUpload s f to1 ro1).1.view = AppState.UPLOAD
      ∧ (handleFileUpload s f to1 ro1).1.error
          = some "Please upload a PDF file. / 请上传 PDF 格式文件。"
      ∧ ("Please upload a PDF file. / 请上传 PDF 格式文件。" : String) ≠ ""
      ∧ (handleFileUpload s f to1 ro1).1.requirements = s.requirements
      ∧ (handleFileUpload s f to1 ro1).2 = false)
    ∧ ((handleFileUploadSim s f to2 ro2).1.view = AppState.UPLOAD
      ∧ (handleFileUploadSim s f to2 ro2).1.error = some "Please upload a PDF file."
      ∧ ("Please upload a PDF file." : String) ≠ ""
      ∧ (handleFileUploadSim s f to2 ro2).1.requirements = s.requirements
      ∧ (handleFileUploadSim s f to2 ro2).2 = false) := by
  have h1 : handleFileUpload s f to1 ro1
      = ({ s with error := some "Please upload a PDF file. / 请上传 PDF 格式文件。" }, false) := by
    unfold handleFileUpload
    rw [if_pos hm]
  have h2 : handleFileUploadSim s f to2 ro2
      = ({ s with error := some "Please upload a PDF file." }, false) := by
    unfold handleFileUploadSim
    rw [if_pos hm]
  rw [h1, h2]
  exact ⟨⟨hv, rfl, by decide, rfl, rfl⟩, ⟨hv, rfl, by decide, rfl, rfl⟩⟩

/-- Witness for the non-PDF rejection at a concrete text/plain file on
a fresh upload-view session. -/
theorem handleFileUpload_nonPDF_rejected_witness :
    (textFile.mimeType ≠ "application/pdf")
    ∧ uploadSession.view = AppState.UPLOAD
    ∧ (((handleFileUpload uploadSession textFile dummyTextOutcome dummyReqOutcome).1.view
            = AppState.UPLOAD
        ∧ (handleFileUpload uploadSession textFile dummyTextOutcome dummyReqOutcome).1.error
            = some "Please upload a PDF file. / 请上传 PDF 格式文件。"
        ∧ ("Please upload a PDF file. / 请上传 PDF 格式文件。" : String) ≠ ""
        ∧ (handleFileUpload uploadSession textFile dummyTextOutcome dummyReqOutcome).1.requirements
            = uploadSession.requirements
        ∧ (handleFileUpload uploadSession textFile dummyTextOutcome dummyReqOutcome).2 = false)
      ∧ ((handleFileUploadSim uploadSession textFile dummyTextOutcome dummyReqOutcome).1.view
            = AppState.UPLOAD
        ∧ (handleFileUploadSim uploadSession textFile dummyTextOutcome dummyReqOutcome).1.error
            = some "Please upload a PDF file."
        ∧ ("Please upload a PDF file." : String) ≠ ""
        ∧ (handleFileUploadSim uploadSession textFile dummyTextOutcome dummyReqOutcome).1.requirements
            = uploadSession.requirements
        ∧ (handleFileUploadSim uploadSession textFile dummyTextOutcome dummyReqOutcome).2
            = false)) :=
  ⟨by decide, rfl,
    handleFileUpload_nonPDF_rejected uploadSession textFile dummyTextOutcome dummyReqOutcome
      dummyTextOutcome dummyReqOutcome (by decide) rfl⟩

/-- Claim C4: in the variant with the size check, a PDF file above
20 * 1024 * 1024 bytes is rejected exactly like a non-PDF file: the
view stays on the upload screen, the non-empty size error message is
recorded, the requirement list is unchanged, and text extraction is
never invoked. -/
theorem handleFileUploadSim_oversize_rejected (s : Session) (f : FileInfo)
    (to2 : Except String String) (ro2 : String → Except String ExtractResult)
    (hm : f.mimeType = "application/pdf") (hs : f.size > 20 * 1024 * 1024)
    (hv : s.view = AppState.UPLOAD) :
    (handleFileUploadSim s f to2 ro2).1.view = AppState.UPLOAD
    ∧ (handleFileUploadSim s f to2 ro2).1.error = some "File size exceeds 20MB."
    ∧ ("File size exceeds 20MB." : String) ≠ ""
    ∧ (handleFileUploadSim s f to2 ro2).1.requirements = s.requirements
    ∧ (handleFileUploadSim s f to2 ro2).2 = false := by
  have h2 : handleFileUploadSim s f to2 ro2
      = ({ s with error := some "File size exceeds 20MB." }, false) := by
    unfold handleFileUploadSim
    rw [if_neg (fun h => h hm), if_pos hs]
  rw [h2]
  exact ⟨hv, rfl, by decide, rfl, rfl⟩

/-- Witness for the oversize rejection at a concrete PDF file one byte
above the cap. -/
theorem handleFileUploadSim_oversize_rejected_witness :
    hugePdfFile.mimeType = "application/pdf"
    ∧ hugePdfFile.size > 20 * 1024 * 1024
    ∧ uploadSession.view = AppState.UPLOAD
    ∧ ((handleFileUploadSim uploadSession hugePdfFile dummyTextOutcome dummyReqOutcome).1.view
          = AppState.UPLOAD
      ∧ (handleFileUploadSim uploadSession hugePdfFile dummyTextOutcome dummyReqOutcome).1.error
          = some "File size exceeds 20MB."
      ∧ ("File size exceeds 20MB." : String) ≠ ""
      ∧ (handleFileUploadSim uploadSession hugePdfFile dummyTextOutcome dummyReqOutcome).1.requirements
          = uploadSession.requirements
      ∧ (handleFileUploadSim uploadSession hugePdfFile dummyTextOutcome dummyReqOutcome).2
          = false) :=
  ⟨rfl, by decide, rfl,
    handleFileUploadSim_oversize_rejected uploadSession hugePdfFile dummyTextOutcome
      dummyReqOutcome rfl (by decide) rfl⟩

/-- Claim C5, counterexample: after a successful upload, Re-upload, and
a second upload whose requirement extraction throws, the session is
back on the upload view with a populated error, but the requirement
list still holds the requirement of the first upload: it is not an
empty list. -/
theorem processFileSim_failure_keeps_stale_requirements :
    c5s1.view = AppState.CONFIRM_REQUIREMENTS
    ∧ c5s3.view = AppState.UPLOAD
    ∧ c5s3.error = some "AI response empty"
    ∧ c5s3.requirements = [c5req]
    ∧ c5s3.requirements ≠ ([] : List Requirement) := by
  decide

/-- Claim C5 (amended): when text extraction or requirement extraction
fails, both processFile variants return the session to the upload view
with a non-empty error message and leave the requirement list exactly
as it was (so it is empty precisely when it was empty before, as on a
first run). -/
theorem processFile_failure_preserves_requirements (s : Session) (e : String)
    (textOutcome : Except String String) (reqOutcome : String → Except String ExtractResult)
    (h : textOutcome = .error e ∨ ∃ t, textOutcome = .ok t ∧ reqOutcome t = .error e) :
    ((processFile s textOutcome reqOutcome).view = AppState.UPLOAD
      ∧ (∃ m, (processFile s textOutcome reqOutcome).error = some m ∧ m ≠ "")
      ∧ (processFile s textOutcome reqOutcome).requirements = s.requirements)
    ∧ ((processFileSim s textOutcome reqOutcome).view = AppState.UPLOAD
      ∧ (∃ m, (processFileSim s textOutcome reqOutcome).error = some m ∧ m ≠ "")
      ∧ (processFileSim s textOutcome reqOutcome).requirements = s.requirements) := by
  have hne1 : ("Analysis Failed: " ++ jsOrDefault e "Unknown error" : String) ≠ "" :=
    append_ne_empty _ _ (by decide)
  have hne2 : jsOrDefault e "Failed to process file" ≠ "" :=
    jsOrDefault_ne_empty _ _ (by decide)
  rcases h with h | ⟨t, ht, hr⟩
  · subst h
    exact ⟨⟨rfl, ⟨_, rfl, hne1⟩, rfl⟩, ⟨rfl, ⟨_, rfl, hne2⟩, rfl⟩⟩
  · subst ht
    have h1 : processFile s (.ok t) reqOutcome =
        { s with loadingMsg := "AI Analyzing Requirements... / AI 正在提取品牌需求..."
                 error := some ("Analysis Failed: " ++ jsOrDefault e "Unknown error")
                 view := AppState.UPLOAD } := by
      simp only [processFile, hr]
    have h2 : processFileSim s (.ok t) reqOutcome =
        { s with loadingMsg := "Identifying color requirements with Gemini AI..."
                 error := some (jsOrDefault e "Failed to process file")
                 view := AppState.UPLOAD } := by
      simp only [processFileSim, hr]
    rw [h1, h2]
    exact ⟨⟨rfl, ⟨_, rfl, hne1⟩, rfl⟩, ⟨rfl, ⟨_, rfl, hne2⟩, rfl⟩⟩

/-- Witness for the failure frame of processFile at a concrete failing
text extraction on a fresh upload-view session. -/
theorem processFile_failure_preserves_requirements_witness :
    ((.error "boom" : Except String String) = .error "boom"
      ∨ ∃ t, (.error "boom" : Except String String) = .ok t ∧ dummyReqOutcome t = .error "boom")
    ∧ (((processFile uploadSession (.error "boom") dummyReqOutcome).view = AppState.UPLOAD
        ∧ (∃ m, (processFile uploadSession (.error "boom") dummyReqOutcome).error = some m
            ∧ m ≠ "")
        ∧ (processFile uploadSession (.error "boom") dummyReqOutcome).requirements
            = uploadSession.requirements)
      ∧ ((processFileSim uploadSession (.error "boom") dummyReqOutcome).view = AppState.UPLOAD
        ∧ (∃ m, (processFileSim uploadSession (.error "boom") dummyReqOutcome).error = some m
            ∧ m ≠ "")
        ∧ (processFileSim uploadSession (.error "boom") dummyReqOutcome).requirements
            = uploadSession.requirements)) :=
  ⟨Or.inl rfl,
    processFile_failure_preserves_requirements uploadSession "boom" (.error "boom")
      dummyReqOutcome (Or.inl rfl)⟩

/-- Claim C6: when the scheme-generation call throws, the
search-augmented handler returns to the search-results view and the
simulated-search handler returns to the confirmation view, and in both
variants the schemes, the requirements and the search result are
exactly what they were before the call. -/
theorem schemeGeneration_failure_preserves_state (s s2 : Session) (e e2 : String)
    (h : s.searchResult ≠ none) :
    ((handleGenerateSchemes s (.error e)).schemes = s.schemes
      ∧ (handleGenerateSchemes s (.error e)).view = AppState.VIEW_SEARCH_RESULTS
      ∧ (handleGenerateSchemes s (.error e)).requirements = s.requirements
      ∧ (handleGenerateSchemes s (.error e)).searchResult = s.searchResult
      ∧ (handleGenerateSchemes s (.error e)).error
          = some ("Generation Failed: " ++ e))
    ∧ ((handleStartSearchSim s2 (.error e2)).schemes = s2.schemes
      ∧ (handleStartSearchSim s2 (.error e2)).view = AppState.CONFIRM_REQUIREMENTS
      ∧ (handleStartSearchSim s2 (.error e2)).requirements = s2.requirements
      ∧ (handleStartSearchSim s2 (.error e2)).searchResult = s2.searchResult
      ∧ (handleStartSearchSim s2 (.error e2)).error = some (jsOrDefault e2 "Search failed")) := by
  have h1 : handleGenerateSchemes s (.error e)
      = { s with error := some ("Generation Failed: " ++ e)
                 view := AppState.VIEW_SEARCH_RESULTS
                 loadingMsg := "Generating Color Strategies... / 正在生成色彩策略..." } := by
    unfold handleGenerateSchemes
    rw [if_neg h]
  have h2 : handleStartSearchSim s2 (.error e2)
      = { s2 with error := some (jsOrDefault e2 "Search failed")
                  view := AppState.CONFIRM_REQUIREMENTS
                  loadingMsg := "Cross-referencing market data on Behance/Pinterest..." } := by
    simp only [handleStartSearchSim]
  rw [h1, h2]
  exact ⟨⟨rfl, rfl, rfl, rfl, rfl⟩, ⟨rfl, rfl, rfl, rfl, rfl⟩⟩

/-- Witness for the generation-failure frame on a concrete session
holding a search result. -/
theorem schemeGeneration_failure_preserves_state_witness :
    (c2session.searchResult ≠ none)
    ∧ (((handleGenerateSchemes c2session (.error "503")).schemes = c2session.schemes
        ∧ (handleGenerateSchemes c2session (.error "503")).view = AppState.VIEW_SEARCH_RESULTS
        ∧ (handleGenerateSchemes c2session (.error "503")).requirements
            = c2session.requirements
        ∧ (handleGenerateSchemes c2session (.error "503")).searchResult
            = c2session.searchResult
        ∧ (handleGenerateSchemes c2session (.error "503")).error
            = some ("Generation Failed: " ++ "503"))
      ∧ ((handleStartSearchSim uploadSession (.error "503")).schemes = uploadSession.schemes
        ∧ (handleStartSearchSim uploadSession (.error "503")).view
            = AppState.CONFIRM_REQUIREMENTS
        ∧ (handleStartSearchSim uploadSession (.error "503")).requirements
            = uploadSession.requirements
        ∧ (handleStartSearchSim uploadSession (.error "503")).searchResult
            = uploadSession.searchResult
        ∧ (handleStartSearchSim uploadSession (.error "503")).error
            = some (jsOrDefault "503" "Search failed"))) :=
  ⟨by decide,
    schemeGeneration_failure_preserves_state c2session uploadSession "503" "503" (by decide)⟩

/-- Claim C8, counterexample: the reset action does not clear the
customer name (in either variant), and the simulated-search reset does
not clear the best scheme either. -/
theorem resetSession_keeps_customerName :
    (resetSession c8session).customerName = "Acme Studio"
    ∧ ("Acme Studio" : String) ≠ ""
    ∧ (resetSessionSim c8session).customerName = "Acme Studio"
    ∧ (resetSessionSim c8session).bestScheme.isSome = true := by
  exact ⟨rfl, by decide, rfl, rfl⟩

/-- Claim C8 (amended): both resets return the view to the upload state
and clear requirements and schemes; the search-augmented reset also
clears the best scheme and the generated image; the customer name is
preserved by both variants, the search result by the search-augmented
variant, and the best scheme and generated image by the
simulated-search variant. -/
theorem resetSession_field_effects (s : Session) :
    (resetSession s).view = AppState.UPLOAD
    ∧ (resetSession s).requirements = []
    ∧ (resetSession s).schemes = []
    ∧ (resetSession s).bestScheme = none
    ∧ (resetSession s).generatedImage = none
    ∧ (resetSession s).customerName = s.customerName
    ∧ (resetSession s).searchResult = s.searchResult
    ∧ (resetSession s).error = s.error
    ∧ (resetSessionSim s).view = AppState.UPLOAD
    ∧ (resetSessionSim s).requirements = []
    ∧ (resetSessionSim s).schemes = []
    ∧ (resetSessionSim s).bestScheme = s.bestScheme
    ∧ (resetSessionSim s).generatedImage = s.generatedImage
    ∧ (resetSessionSim s).customerName = s.customerName := by
  exact ⟨rfl, rfl, rfl, rfl, rfl, rfl, rfl, rfl, rfl, rfl, rfl, rfl, rfl, rfl⟩

/-- The accumulating page loop equals the accumulator followed by the
right-recursive page concatenation. -/
theorem extractPagesLoop_eq (l : List String) :
    ∀ (i : ℕ) (acc : String), extractPagesLoop i acc l = acc ++ pageMarkersConcat i l := by
  induction l with
  | nil =>
    intro i acc
    show acc = acc ++ ""
    rw [String.append_empty]
  | cons t rest ih =>
    intro i acc
    show extractPagesLoop (i + 1) (acc ++ ("[Page " ++ toString i ++ "] " ++ t ++ "\n")) rest
        = acc ++ ("[Page " ++ toString i ++ "] " ++ t ++ "\n" ++ pageMarkersConcat (i + 1) rest)
    rw [ih]
    simp only [String.append_assoc]

/-- Claim C9: extractTextFromPDF returns the concatenation of per-page
text, each page prefixed with its "[Page i] " marker and followed by a
newline, and only the first 20 pages contribute: pages beyond the
twentieth are dropped. -/
theorem extractTextFromPDF_spec (pages : List String) :
    extractTextFromPDF pages = pageConcatSpec pages
    ∧ extractTextFromPDF pages = extractTextFromPDF (pages.take 20) := by
  constructor
  · show extractPagesLoop 1 "" (pages.take 20) = pageMarkersConcat 1 (pages.take 20)
    rw [extractPagesLoop_eq, String.empty_append]
  · show extractPagesLoop 1 "" (pages.take 20)
        = extractPagesLoop 1 "" ((pages.take 20).take 20)
    rw [List.take_take, min_self]

/-- Evaluation of the annotation step on a batch whose composites are
10.00 and 9.00. -/
theorem c10batch_eval :
    generateAndScoreSchemes c10raws
      = [ { id := "hi", scores := ⟨10, 10, 10, 10, 10⟩, weightedScore := "10.00" }
        , { id := "lo", scores := ⟨9, 9, 9, 9, 9⟩, weightedScore := "9.00" } ] := by
  have e10 : toFixedTwo ((10 : ℚ) * 0.30 + 10 * 0.25 + 10 * 0.20 + 10 * 0.15 + 10 * 0.10)
      = "10.00" := by
    rw [toFixedTwo_of_round _ 1000 (by norm_num)]
    decide
  have e9 : toFixedTwo ((9 : ℚ) * 0.30 + 9 * 0.25 + 9 * 0.20 + 9 * 0.15 + 9 * 0.10)
      = "9.00" := by
    rw [toFixedTwo_of_round _ 900 (by norm_num)]
    decide
  simp only [generateAndScoreSchemes, c10raws, List.map_cons, List.map_nil, e10, e9]

/-- Claim C10: each scheme is annotated with the toFixed(2) string, the
JavaScript string order puts "10.00" below "9.00", so the
simulated-search reduce (comparing the strings directly) selects the
scheme whose numeric score 9 is smaller than 10, while the
search-augmented reduce (comparing through Number) selects the
numerically maximal scheme. -/
theorem weightedScore_string_comparison_diverges :
    ((generateAndScoreSchemes c10raws).map fun t => t.weightedScore) = ["10.00", "9.00"]
    ∧ jsStringLt "10.00" "9.00" = true
    ∧ ((handleStartSearchSim c10simSession (.ok c10raws)).bestScheme.map fun t => t.id)
        = some "lo"
    ∧ jsNumber "9.00" < jsNumber "10.00"
    ∧ ((handleGenerateSchemes c10searchSession (.ok c10raws)).bestScheme.map fun t => t.id)
        = some "hi" := by
  refine ⟨by rw [c10batch_eval]; rfl, by decide, ?_, ?_, ?_⟩
  · have hlt : jsStringLt "9.00" "10.00" = false := by decide
    simp only [handleStartSearchSim, c10batch_eval, simBest, List.foldl, hlt, if_false]
    rfl
  · rw [jsNumber_900, jsNumber_1000]
    norm_num
  · have hguard : ¬(c10searchSession.searchResult = none) := by decide
    simp only [handleGenerateSchemes, hguard, if_false, c10batch_eval]
    norm_num [jsReduceBest, List.foldl, jsNumber_900, jsNumber_1000]

/-- In a list split as pre ++ x :: xs, the first index whose url equals
the url of x is exactly the length of pre iff no element of pre carries
that url. -/
theorem findIdx_url_append (pre : List SourceRef) (x : SourceRef) (xs : List SourceRef) :
    ((pre ++ x :: xs).findIdx (fun w => w.url == x.url) = pre.length)
      ↔ ∀ y ∈ pre, y.url ≠ x.url := by
  induction pre with
  | nil =>
    simp [List.findIdx_cons]
  | cons a pre ih =>
    rw [List.cons_append, List.findIdx_cons]
    cases hb : a.url == x.url
    · simp only [hb, cond_false, List.length_cons, Nat.add_right_cancel_iff, ih,
        List.forall_mem_cons]
      simp [ne_of_beq_false hb]
    · simp only [hb, cond_true, List.length_cons, List.forall_mem_cons]
      constructor
      · intro h0
        exact absurd h0 (by omega)
      · intro hall
        exact absurd (eq_of_beq hb) hall.1

/-- The seen-accumulator scan only queries membership in the seen list,
so any two seen lists with the same members produce the same result. -/
theorem dedupSeen_congr (l : List SourceRef) :
    ∀ (s1 s2 : List String), (∀ u, u ∈ s1 ↔ u ∈ s2) → dedupSeen s1 l = dedupSeen s2 l := by
  induction l with
  | nil => intro s1 s2 _; rfl
  | cons x xs ih =>
    intro s1 s2 hs
    by_cases h : x.url ∈ s1
    · simp only [dedupSeen]
      rw [if_pos h, if_pos ((hs x.url).mp h)]
      exact ih s1 s2 hs
    · simp only [dedupSeen]
      rw [if_neg h, if_neg (fun hh => h ((hs x.url).mpr hh))]
      exact congrArg (x :: ·) (ih _ _ fun u => by simp [List.mem_cons, hs u])

/-- The index-based filter of the source, run over the suffix of the
full list past a prefix, equals the seen-accumulator scan seeded with
the urls of the prefix. -/
theorem filterWithIdx_eq_dedupSeen (L : List SourceRef) :
    ∀ (rest pre : List SourceRef), L = pre ++ rest →
      filterWithIdx (fun i v => L.findIdx (fun w => w.url == v.url) == i) pre.length rest
        = dedupSeen (pre.map fun y => y.url) rest := by
  intro rest
  induction rest with
  | nil => intro pre _; rfl
  | cons x xs ih =>
    intro pre hL
    have hL2 : L = (pre ++ [x]) ++ xs := by rw [hL]; simp
    have hlen : (pre ++ [x]).length = pre.length + 1 := by simp
    have htail := ih (pre ++ [x]) hL2
    rw [hlen] at htail
    by_cases hx : ∀ y ∈ pre, y.url ≠ x.url
    · have hcond : (L.findIdx (fun w => w.url == x.url) == pre.length) = true := by
        rw [beq_iff_eq, hL]
        exact (findIdx_url_append pre x xs).mpr hx
      have hseen : ¬(x.url ∈ pre.map fun y => y.url) := by
        intro hc
        obtain ⟨y, hy, hyu⟩ := List.mem_map.mp hc
        exact hx y hy hyu
      simp only [filterWithIdx, dedupSeen, hcond, if_neg hseen]
      simp only [if_true]
      congr 1
      rw [htail]
      refine dedupSeen_congr xs _ _ fun u => ?_
      simp [List.mem_append, List.mem_cons, or_comm]
    · have hcond : (L.findIdx (fun w => w.url == x.url) == pre.length) = false := by
        rw [beq_eq_false_iff_ne]
        rw [hL]
        intro hEq
        exact hx ((findIdx_url_append pre x xs).mp hEq)
      have hseen : x.url ∈ pre.map fun y => y.url := by
        push_neg at hx
        obtain ⟨y, hy, hyu⟩ := hx
        exact List.mem_map.mpr ⟨y, hy, hyu⟩
      simp only [filterWithIdx, dedupSeen, hcond, if_pos hseen]
      rw [if_neg (by simp)]
      rw [htail]
      refine dedupSeen_congr xs _ _ fun u => ?_
      simp only [List.map_append, List.map_cons, List.map_nil, List.mem_append,
        List.mem_cons, List.not_mem_nil, or_false]
      constructor
      · rintro (hu | rfl)
        · exact hu
        · exact hseen
      · exact Or.inl

/-- The seen-accumulator scan equals the recursive first-occurrence
selection applied to the elements whose url is not yet seen. -/
theorem dedupSeen_eq_firstOccurrences (l : List SourceRef) :
    ∀ (seen : List String),
      dedupSeen seen l = firstOccurrences (l.filter fun v => decide (¬(v.url ∈ seen))) := by
  induction l with
  | nil =>
    intro seen
    rw [List.filter_nil]
    simp only [firstOccurrences]
    rfl
  | cons x xs ih =>
    intro seen
    by_cases h : x.url ∈ seen
    · have hd : decide (¬(x.url ∈ seen)) = false := by simp [h]
      simp only [dedupSeen, List.filter_cons, hd]
      rw [if_pos h, if_neg (by simp)]
      exact ih seen
    · have hd : decide (¬(x.url ∈ seen)) = true := by simp [h]
      simp only [dedupSeen, List.filter_cons, hd]
      rw [if_neg h]
      simp only [if_true]
      simp only [firstOccurrences]
      congr 1
      rw [List.filter_filter, ih (x.url :: seen)]
      congr 1
      refine List.filter_congr fun v _ => ?_
      by_cases h1 : v.url = x.url <;> by_cases h2 : v.url ∈ seen <;>
        simp [h1, h2, List.mem_cons]

/-- The deduplication line of the source equals the first-occurrence
selection capped at five entries. -/
theorem uniqueSources_eq_firstOccurrences (l : List SourceRef) :
    uniqueSources l = (firstOccurrences l).take 5 := by
  have h0 : filterWithIdx (fun i v => l.findIdx (fun w => w.url == v.url) == i) 0 l
      = dedupSeen [] l := by
    simpa using filterWithIdx_eq_dedupSeen l l [] rfl
  unfold uniqueSources
  rw [h0, dedupSeen_eq_firstOccurrences l []]
  congr 2
  simp

/-- The first-occurrence selection is a sublist of its input: it keeps
relative order and invents nothing. -/
theorem firstOccurrences_sublist (l : List SourceRef) : (firstOccurrences l).Sublist l := by
  induction l using firstOccurrences.induct with
  | case1 => simp [firstOccurrences]
  | case2 x xs ih =>
    simp only [firstOccurrences]
    exact (ih.trans (List.filter_sublist xs)).cons₂ x

/-- The urls of the first-occurrence selection are pairwise distinct. -/
theorem firstOccurrences_nodup (l : List SourceRef) :
    ((firstOccurrences l).map fun v => v.url).Nodup := by
  induction l using firstOccurrences.induct with
  | case1 => simp [firstOccurrences]
  | case2 x xs ih =>
    simp only [firstOccurrences, List.map_cons, List.nodup_cons]
    refine ⟨?_, ih⟩
    intro hmem
    obtain ⟨y, hy, hyu⟩ := List.mem_map.mp hmem
    have hy2 : y ∈ xs.filter fun w => w.url != x.url :=
      (firstOccurrences_sublist _).subset hy
    have := List.mem_filter.mp hy2
    exact absurd hyu (by simpa using this.2)

/-- Claim C7: the source list of performMarketSearch is the
first-occurrence deduplication of the collected citations capped at 5
entries: every url appears at most once, relative order (by first
occurrence) is preserved, and the list never exceeds five entries. -/
theorem performMarketSearchSources_spec (chunks : List Chunk) :
    performMarketSearchSources chunks
      = (firstOccurrences (collectSources chunks)).take 5
    ∧ ((performMarketSearchSources chunks).map fun v => v.url).Nodup
    ∧ (performMarketSearchSources chunks).Sublist (collectSources chunks)
    ∧ (performMarketSearchSources chunks).length ≤ 5 := by
  have he : performMarketSearchSources chunks
      = (firstOccurrences (collectSources chunks)).take 5 :=
    uniqueSources_eq_firstOccurrences _
  refine ⟨he, ?_, ?_, ?_⟩
  · rw [he]
    exact List.Nodup.sublist (List.Sublist.map _ (List.take_sublist 5 _))
      (firstOccurrences_nodup _)
  · rw [he]
    exact (List.take_sublist 5 _).trans (firstOccurrences_sublist _)
  · rw [he]
    exact List.length_take_le 5 _

end ColorInsight
